import Mathlib

/-!
Shallow embedding of the movie-app API core.

Sources embedded:
- app/core/models.py: the Movie and Genre records and movie_image_file_path.
- app/movie/views.py: MovieViewSet (_params_to_ints, get_queryset, get_object,
  perform_create) and GenreViewSet (get_queryset).
- app/movie/serializers.py: MovieSerializer (_get_or_create_genres, create,
  update) and its declared writable fields.
- app/movie/urls.py: the router registrations.

Users are identified by their surrogate key (a Nat).  The relational state is
a `Db` value: the Movie rows, the Genre rows, and the next surrogate keys.
Requests that raise an HTTP-level outcome are modelled with `Except ApiError`.
-/

/-- HTTP-level outcomes of the API: 404 NotFound, 403 Forbidden,
400 validation failure, and 500 (an exception the framework does not map,
such as the ValueError raised by int() on a malformed token, or Django's
MultipleObjectsReturned inside get_or_create). -/
inductive ApiError where
  | notFound
  | forbidden
  | validationError
  | serverError
deriving DecidableEq, Repr

/-- A row of the Genre table (core/models.py, class Genre): surrogate id,
name, and the owning user's id. -/
structure Genre where
  id : Nat
  name : String
  user : Nat
deriving DecidableEq, Repr

/-- A row of the Movie table (core/models.py, class Movie).  `genres` is the
movie's side of the Movie-Genre junction table: the ids of the attached
Genre rows.  `image` is the stored file reference. -/
structure Movie where
  id : Nat
  user : Nat
  title : String
  description : String
  running_time_minutes : Int
  release_date : Option String
  age_restriction : String
  link : String
  genres : List Nat
  image : String
deriving DecidableEq, Repr

/-- The database state: all Movie rows, all Genre rows, and the next
surrogate keys the persistence layer would hand out. -/
structure Db where
  movies : List Movie
  genres : List Genre
  nextMovieId : Nat
  nextGenreId : Nat
deriving DecidableEq, Repr

/-- Strip leading and trailing whitespace, as Python's int() does before
parsing. -/
def pyStrip (cs : List Char) : List Char :=
  ((cs.dropWhile Char.isWhitespace).reverse.dropWhile Char.isWhitespace).reverse

/-- Numeric value of a list of decimal digit characters. -/
def digitsVal (cs : List Char) : Nat :=
  cs.foldl (fun a c => a * 10 + (c.toNat - 48)) 0

/-- Python's built-in int() applied to a string: optional surrounding
whitespace, an optional sign, then at least one decimal digit; anything else
raises ValueError (modelled as `none`). -/
def pythonInt (s : String) : Option Int :=
  match pyStrip s.toList with
  | [] => none
  | c :: cs =>
    let sgn : Int := if c = '-' then -1 else 1
    let ds : List Char := if c = '-' ∨ c = '+' then cs else c :: cs
    if ds.isEmpty then none
    else if ds.all Char.isDigit then some (sgn * digitsVal ds) else none

/-- Python's str.split on a one-character separator: splits at every
occurrence, so an empty string yields [""] and adjacent separators yield
empty pieces. -/
def splitOnChar (sep : Char) : List Char → List (List Char)
  | [] => [[]]
  | c :: rest =>
    if c = sep then [] :: splitOnChar sep rest
    else
      match splitOnChar sep rest with
      | [] => [[c]]
      | h :: t => (c :: h) :: t

/-- MovieViewSet._params_to_ints (views.py): `[int(s) for s in qs.split(',')]`.
`none` models the uncaught ValueError when some token is not an integer. -/
def paramsToInts (qs : String) : Option (List Int) :=
  (splitOnChar ',' qs.toList).mapM (fun cs => pythonInt ⟨cs⟩)

/-- Ordering used by order_by('-id') on movies: descending surrogate key. -/
def movieIdGe (a b : Movie) : Prop := b.id ≤ a.id

instance : DecidableRel movieIdGe := fun a b => Nat.decLe b.id a.id

instance : IsTotal Movie movieIdGe := ⟨fun a b => Nat.le_total b.id a.id⟩

instance : IsTrans Movie movieIdGe := ⟨fun _ _ _ h h2 => Nat.le_trans h2 h⟩

/-- Ordering used by order_by('-name') on genres: descending name. -/
def genreNameGe (a b : Genre) : Prop := b.name ≤ a.name

instance : DecidableRel genreNameGe :=
  fun a b => inferInstanceAs (Decidable (b.name ≤ a.name))

instance : IsTotal Genre genreNameGe := ⟨fun a b => le_total b.name a.name⟩

instance : IsTrans Genre genreNameGe := ⟨fun _ _ _ h h2 => le_trans h2 h⟩

/-- The SQL join produced by `.filter(genres__id__in=genre_ids)`: each movie
row is emitted once per attached genre whose id is in the requested set, so a
movie matching several requested ids appears several times (the duplication
that `.distinct()` later removes). -/
def genreJoinFilter (movies : List Movie) (gids : List Int) : List Movie :=
  movies.flatMap fun m =>
    (m.genres.filter fun g => gids.contains (Int.ofNat g)).map fun _ => m

/-- The tail of MovieViewSet.get_queryset:
`.filter(user=self.request.user).order_by('-id').distinct()`. -/
def finishQueryset (owner : Nat) (qs : List Movie) : List Movie :=
  (List.insertionSort movieIdGe (qs.filter fun m => m.user == owner)).dedup

/-- The genre-filter half of MovieViewSet.get_queryset: `genres` is the raw
query parameter (none when absent); `if genres:` is false for both None and
the empty string, so the filter branch runs only on a non-empty string. -/
def baseQueryset (db : Db) (genresParam : Option String) :
    Except ApiError (List Movie) :=
  match genresParam with
  | none => .ok db.movies
  | some s =>
    if s.isEmpty then .ok db.movies
    else
      match paramsToInts s with
      | none => .error .serverError
      | some gids => .ok (genreJoinFilter db.movies gids)

/-- MovieViewSet.get_queryset (views.py): optional genre filter, then the
always-applied owner filter, ordering and duplicate elimination. -/
def getQueryset (db : Db) (owner : Nat) (genresParam : Option String) :
    Except ApiError (List Movie) :=
  match baseQueryset db genresParam with
  | .error e => .error e
  | .ok qs => .ok (finishQueryset owner qs)

/-- The list action of MovieViewSet: its result is the queryset. -/
def listMovies (db : Db) (owner : Nat) (genresParam : Option String) :
    Except ApiError (List Movie) :=
  getQueryset db owner genresParam

/-- DRF's get_object on MovieViewSet: look the pk up inside get_queryset
(so inside the owner-filtered rows); a miss raises Http404. -/
def getObject (db : Db) (owner : Nat) (mid : Nat) : Except ApiError Movie :=
  match getQueryset db owner none with
  | .error e => .error e
  | .ok qs =>
    match qs.find? (fun m => m.id == mid) with
    | some m => .ok m
    | none => .error .notFound

/-- The payload of a movie create/update request, after JSON decoding.
Each field is present or absent.  `user` can be present in the raw payload,
but it is not among MovieSerializer's declared fields, so validation drops
it: no code below ever reads it. -/
structure MoviePayload where
  user : Option Nat
  title : Option String
  description : Option String
  running_time_minutes : Option Int
  release_date : Option (Option String)
  age_restriction : Option String
  link : Option String
  image : Option String
  genres : Option (List String)
deriving DecidableEq, Repr

/-- Django's many-to-many add: attaching an already-attached genre is a
no-op, otherwise the junction row is appended. -/
def m2mAdd (gs : List Nat) (g : Nat) : List Nat :=
  if g ∈ gs then gs else gs ++ [g]

/-- Django's Genre.objects.get_or_create(user=..., name=...): return the
single matching row, or create a fresh one when none matches; more than one
match raises MultipleObjectsReturned (an unmapped exception). -/
def getOrCreate (db : Db) (u : Nat) (name : String) :
    Except ApiError (Genre × Db) :=
  match db.genres.filter (fun g => g.user == u && g.name == name) with
  | [] =>
    let g : Genre := { id := db.nextGenreId, name := name, user := u }
    .ok (g, { db with genres := db.genres ++ [g],
                      nextGenreId := db.nextGenreId + 1 })
  | [g] => .ok (g, db)
  | _ => .error .serverError

/-- MovieSerializer._get_or_create_genres (serializers.py): for each
descriptor (a validated genre dict, carrying its name), get-or-create the
genre under the authenticated user and add it to the movie's genre set.
`mg` threads the movie's current attachment list. -/
def getOrCreateGenres (db : Db) (u : Nat) (descs : List String)
    (mg : List Nat) : Except ApiError (Db × List Nat) :=
  match descs with
  | [] => .ok (db, mg)
  | name :: rest =>
    match getOrCreate db u name with
    | .error e => .error e
    | .ok (g, db1) => getOrCreateGenres db1 u rest (m2mAdd mg g.id)

/-- The setattr loop of MovieSerializer.update: overwrite exactly the
attributes present in validated_data.  validated_data holds serializer
fields only, so `user` (and `id`, read-only) are never touched. -/
def applyFields (inst : Movie) (p : MoviePayload) : Movie :=
  { inst with
    title := p.title.getD inst.title,
    description := p.description.getD inst.description,
    running_time_minutes :=
      p.running_time_minutes.getD inst.running_time_minutes,
    release_date := p.release_date.getD inst.release_date,
    age_restriction := p.age_restriction.getD inst.age_restriction,
    link := p.link.getD inst.link,
    image := p.image.getD inst.image }

/-- instance.save(): write the mutated row back over the row with its id. -/
def replaceMovie (db : Db) (m : Movie) : Db :=
  { db with movies := db.movies.map fun x => if x.id == m.id then m else x }

/-- MovieSerializer.update (serializers.py): pop `genres` from
validated_data; when it is present (even as an empty list) clear the
movie's genre set and re-attach via _get_or_create_genres; then the setattr
loop over the remaining fields, then save. -/
def serializerUpdate (db : Db) (u : Nat) (inst : Movie) (p : MoviePayload) :
    Except ApiError (Db × Movie) :=
  match p.genres with
  | some descs =>
    match getOrCreateGenres db u descs [] with
    | .error e => .error e
    | .ok (db1, gs) =>
      let inst1 := applyFields { inst with genres := gs } p
      .ok (replaceMovie db1 inst1, inst1)
  | none =>
    let inst1 := applyFields inst p
    .ok (replaceMovie db inst1, inst1)

/-- The Movie row built by Movie.objects.create(**validated_data) with
`user=self.request.user` injected by perform_create: required fields from
the payload, optional fields at their model defaults when absent, no
genres yet, owner = the requesting user. -/
def mkNewMovie (db : Db) (requestUser : Nat) (t : String) (rt : Int)
    (p : MoviePayload) : Movie :=
  { id := db.nextMovieId, user := requestUser, title := t,
    description := p.description.getD "",
    running_time_minutes := rt,
    release_date := p.release_date.getD none,
    age_restriction := p.age_restriction.getD "",
    link := p.link.getD "",
    genres := [],
    image := p.image.getD "" }

/-- MovieSerializer.create composed with MovieViewSet.perform_create:
`serializer.save(user=self.request.user)` injects the requesting user as
the owner, validation requires title and running_time_minutes, the row is
created, then _get_or_create_genres runs on the supplied descriptors. -/
def createMovie (db : Db) (requestUser : Nat) (p : MoviePayload) :
    Except ApiError (Db × Movie) :=
  match p.title, p.running_time_minutes with
  | some t, some rt =>
    match getOrCreateGenres
        { db with movies := db.movies ++ [mkNewMovie db requestUser t rt p],
                  nextMovieId := db.nextMovieId + 1 }
        requestUser (p.genres.getD []) [] with
    | .error e => .error e
    | .ok (db2, gs) =>
      .ok (replaceMovie db2 { mkNewMovie db requestUser t rt p with
                              genres := gs },
           { mkNewMovie db requestUser t rt p with genres := gs })
  | _, _ => .error .validationError

/-- The retrieve action on /movies/pk: get_object then serialize. -/
def retrieveMovie (db : Db) (owner : Nat) (mid : Nat) :
    Except ApiError Movie :=
  getObject db owner mid

/-- The update action on /movies/pk: get_object (owner-scoped), then
MovieSerializer.update. -/
def updateMovie (db : Db) (owner : Nat) (mid : Nat) (p : MoviePayload) :
    Except ApiError (Db × Movie) :=
  match getObject db owner mid with
  | .error e => .error e
  | .ok inst => serializerUpdate db owner inst p

/-- The destroy action on /movies/pk: get_object (owner-scoped), then
delete the row. -/
def deleteMovie (db : Db) (owner : Nat) (mid : Nat) : Except ApiError Db :=
  match getObject db owner mid with
  | .error _ => .error .notFound
  | .ok m => .ok { db with movies := db.movies.filter fun x => x.id != m.id }

/-- GenreViewSet.get_queryset (views.py):
`self.queryset.filter(user=self.request.user).order_by('-name')`. -/
def genreListQueryset (db : Db) (owner : Nat) : List Genre :=
  List.insertionSort genreNameGe (db.genres.filter fun g => g.user == owner)

/-- The DefaultRouter registrations of urls.py:
`router.register('movies', views.MovieViewSet)` and
`router.register('tags', views.GenreViewSet)`.  Each pair is the URL
segment and the viewset bound to it. -/
def routerRegistrations : List (String × String) :=
  [("movies", "MovieViewSet"), ("tags", "GenreViewSet")]

/-- The viewset a URL segment routes to, if any. -/
def routeFor (seg : String) : Option String :=
  (routerRegistrations.find? fun r => r.1 == seg).map (fun r => r.2)

/-- Suffix of a character list from its last '/' (exclusive); the whole
list when it has no '/'.  This is the basename step of os.path.splitext. -/
def afterLastSep : List Char → List Char
  | [] => []
  | c :: cs =>
    if '/' ∈ cs then afterLastSep cs
    else if c = '/' then cs else c :: cs

/-- Suffix of a character list from its last '.' (inclusive); empty when it
has no '.'. -/
def fromLastDot : List Char → List Char
  | [] => []
  | c :: cs =>
    if '.' ∈ cs then fromLastDot cs
    else if c = '.' then c :: cs else []

/-- The extension part of os.path.splitext: within the basename, the suffix
from the last dot, except that the leading dots of the basename do not
start an extension (splitext('.bashrc') has no extension). -/
def splitextExt (p : String) : String :=
  ⟨fromLastDot ((afterLastSep p.toList).dropWhile (fun c => c == '.'))⟩

/-- core/models.py movie_image_file_path: a fresh uuid4 is rendered to text
(taken here as the parameter `uuidHex`, since its value is random), the
original file name contributes only its splitext extension, and the result
is os.path.join('uploads', 'movie', new name) — the generated name never
starts with a separator, so the join is plain concatenation. -/
def movie_image_file_path (uuidHex : String) (origName : String) : String :=
  let e := splitextExt origName
  let newName := uuidHex ++ e
  "uploads" ++ "/" ++ "movie" ++ "/" ++ newName

/-- Concrete movie used by the witnesses: owned by user 1, tagged genre 1. -/
def exA : Movie :=
  { id := 1, user := 1, title := "A", description := "",
    running_time_minutes := 90, release_date := none,
    age_restriction := "", link := "", genres := [1], image := "" }

/-- Concrete movie used by the witnesses: owned by user 1, tagged genre 2. -/
def exB : Movie :=
  { id := 2, user := 1, title := "B", description := "",
    running_time_minutes := 100, release_date := none,
    age_restriction := "", link := "", genres := [2], image := "" }

/-- Concrete movie used by the witnesses: owned by user 1, untagged. -/
def exC : Movie :=
  { id := 3, user := 1, title := "C", description := "",
    running_time_minutes := 80, release_date := none,
    age_restriction := "", link := "", genres := [], image := "" }

/-- Concrete movie used by the witnesses: owned by user 2, tagged genre 1. -/
def exD : Movie :=
  { id := 4, user := 2, title := "D", description := "",
    running_time_minutes := 70, release_date := none,
    age_restriction := "", link := "", genres := [1], image := "" }

/-- A database used by the concrete witnesses: two users (1 and 2), two
genres owned by user 1, and four movies. -/
def exDb : Db :=
  { movies := [exA, exB, exC, exD],
    genres :=
      [ { id := 1, name := "Action", user := 1 },
        { id := 2, name := "Drama", user := 1 } ],
    nextMovieId := 10,
    nextGenreId := 5 }

/-- A payload used by the concrete witnesses: it carries a `user` value
different from every owner in `exDb`, and renames the movie. -/
def exPayload : MoviePayload :=
  { user := some 99, title := some "Renamed", description := none,
    running_time_minutes := none, release_date := none,
    age_restriction := none, link := none, image := none, genres := none }

/-- A payload used by the create witness: required fields present, a stray
`user` value present. -/
def exCreatePayload : MoviePayload :=
  { user := some 42, title := some "T", description := none,
    running_time_minutes := some 120, release_date := none,
    age_restriction := none, link := none, image := none, genres := none }

/-- The movie `exA` after an update that renames it (the result of
applyFields on `exA` with `exPayload`). -/
def exAUpd : Movie :=
  { id := 1, user := 1, title := "Renamed", description := "",
    running_time_minutes := 90, release_date := none,
    age_restriction := "", link := "", genres := [1], image := "" }

/-- The movie created by `exCreatePayload` for user 1 on `exDb`. -/
def exNew : Movie :=
  { id := 10, user := 1, title := "T", description := "",
    running_time_minutes := 120, release_date := none,
    age_restriction := "", link := "", genres := [], image := "" }

/-- An update payload that only supplies genres, naming the genre "Action"
that user 1 already owns in `exDb`. -/
def exGenresPayload : MoviePayload :=
  { user := none, title := none, description := none,
    running_time_minutes := none, release_date := none,
    age_restriction := none, link := none, image := none,
    genres := some ["Action"] }

/-- An update payload that supplies an empty genres list. -/
def exClearPayload : MoviePayload :=
  { user := none, title := none, description := none,
    running_time_minutes := none, release_date := none,
    age_restriction := none, link := none, image := none,
    genres := some [] }

/-- The movie `exB` after an update with `exGenresPayload`: its genre set is
replaced by the reconciled set, which is the existing "Action" genre id. -/
def exBUpd : Movie :=
  { id := 2, user := 1, title := "B", description := "",
    running_time_minutes := 100, release_date := none,
    age_restriction := "", link := "", genres := [1], image := "" }

/-- The movie `exA` after an update with `exClearPayload`: all genre
associations removed. -/
def exACleared : Movie :=
  { id := 1, user := 1, title := "A", description := "",
    running_time_minutes := 90, release_date := none,
    age_restriction := "", link := "", genres := [], image := "" }


theorem mem_finishQueryset (owner : Nat) (qs : List Movie) (m : Movie) :
    m ∈ finishQueryset owner qs ↔ m ∈ qs ∧ m.user = owner := by
  unfold finishQueryset
  rw [List.mem_dedup, (List.perm_insertionSort movieIdGe _).mem_iff,
    List.mem_filter]
  simp

theorem nodup_finishQueryset (owner : Nat) (qs : List Movie) :
    (finishQueryset owner qs).Nodup :=
  List.nodup_dedup _

theorem getQueryset_none (db : Db) (owner : Nat) :
    getQueryset db owner none = .ok (finishQueryset owner db.movies) := rfl

/-- Claim C1: for every authenticated user, every database state and every
(possibly absent) genre filter, the movie list operation returns only movies
whose owning user is that user; no movie owned by another user appears. -/
theorem movieList_isolation (db : Db) (owner : Nat) (gp : Option String)
    (l : List Movie) (m : Movie)
    (hok : listMovies db owner gp = .ok l) (hm : m ∈ l) : m.user = owner := by
  unfold listMovies getQueryset at hok
  cases hb : baseQueryset db gp with
  | error e =>
    rw [hb] at hok
    exact Except.noConfusion hok
  | ok qs =>
    rw [hb] at hok
    have h2 : (Except.ok (finishQueryset owner qs) : Except ApiError (List Movie)) =
        Except.ok l := hok
    injection h2 with h3
    subst h3
    exact ((mem_finishQueryset owner qs m).mp hm).2

/-- Witness for C1: in the concrete database `exDb`, the movie `exA` (owned
by user 1) is returned by user 1's unfiltered listing, and the theorem
yields its owner. -/
theorem movieList_isolation_witness : exA.user = 1 :=
  movieList_isolation exDb 1 none [exC, exB, exA] exA (by rfl) (by decide)

/-- Claim C3: the detail retrieval, update and delete operations on a movie
id that does not exist for the requesting user — whether absent from the
database or owned by someone else — all fail with the NotFound outcome,
never Forbidden: the lookup filters by id and owner in one step. -/
theorem detail_ops_notFound (db : Db) (u : Nat) (mid : Nat) (p : MoviePayload)
    (habs : ∀ m ∈ db.movies, ¬ (m.id = mid ∧ m.user = u)) :
    retrieveMovie db u mid = .error .notFound ∧
    updateMovie db u mid p = .error .notFound ∧
    deleteMovie db u mid = .error .notFound ∧
    retrieveMovie db u mid ≠ .error .forbidden := by
  have hfind : (finishQueryset u db.movies).find? (fun m => m.id == mid)
      = none := by
    apply List.find?_eq_none.mpr
    intro m hm
    have h2 := (mem_finishQueryset u db.movies m).mp hm
    simp only [beq_iff_eq]
    intro heq
    exact habs m h2.1 ⟨heq, h2.2⟩
  have hobj : getObject db u mid = .error .notFound := by
    have hshape : getObject db u mid =
        (match (finishQueryset u db.movies).find? (fun m => m.id == mid) with
         | some m => Except.ok m
         | none => Except.error ApiError.notFound) := rfl
    rw [hshape, hfind]
  refine ⟨hobj, ?_, ?_, ?_⟩
  · unfold updateMovie
    rw [hobj]
  · unfold deleteMovie
    rw [hobj]
  · unfold retrieveMovie
    rw [hobj]
    simp

/-- Witness for C3: user 3 owns nothing in `exDb`; movie id 4 exists but is
owned by user 2, and retrieval, update and delete all answer NotFound. -/
theorem detail_ops_notFound_witness :
    retrieveMovie exDb 3 4 = .error .notFound ∧
    updateMovie exDb 3 4 exPayload = .error .notFound ∧
    deleteMovie exDb 3 4 = .error .notFound ∧
    retrieveMovie exDb 3 4 ≠ .error .forbidden :=
  detail_ops_notFound exDb 3 4 exPayload (by decide)

/-- Claim C10: a present-but-empty `genres` query parameter is falsy in
`if genres:`, so the request behaves exactly like one with no genre filter:
the unfiltered owner-scoped listing is returned and no error is raised. -/
theorem empty_genres_param_unfiltered (db : Db) (u : Nat) :
    listMovies db u (some "") = listMovies db u none ∧
    listMovies db u (some "") = .ok (finishQueryset u db.movies) :=
  ⟨rfl, rfl⟩

theorem mem_genreJoinFilter (movies : List Movie) (gids : List Int)
    (m : Movie) :
    m ∈ genreJoinFilter movies gids ↔
      m ∈ movies ∧ (m.genres.any fun g => gids.contains (Int.ofNat g)) = true := by
  unfold genreJoinFilter
  rw [List.mem_flatMap]
  constructor
  · rintro ⟨m1, hm1, hmem⟩
    rw [List.mem_map] at hmem
    obtain ⟨g, hg, he⟩ := hmem
    subst he
    refine ⟨hm1, ?_⟩
    rw [List.any_eq_true]
    rw [List.mem_filter] at hg
    exact ⟨g, hg.1, hg.2⟩
  · rintro ⟨hm, hany⟩
    rw [List.any_eq_true] at hany
    obtain ⟨g, hg, hc⟩ := hany
    exact ⟨m, hm, List.mem_map.mpr ⟨g, List.mem_filter.mpr ⟨hg, hc⟩, rfl⟩⟩

theorem getQueryset_some (db : Db) (owner : Nat) (s : String)
    (gids : List Int) (hne : s.isEmpty = false)
    (hp : paramsToInts s = some gids) :
    getQueryset db owner (some s) =
      .ok (finishQueryset owner (genreJoinFilter db.movies gids)) := by
  simp only [getQueryset, baseQueryset, hne, hp]
  rfl

/-- Claim C6: with a parsed genre-id set, the filtered listing holds exactly
the requester's movies attached to at least one requested genre id (the
union over the ids), and the listing has no duplicate entries even though
the underlying join emits one row per matching genre. -/
theorem genre_filter_union_distinct (db : Db) (owner : Nat) (s : String)
    (gids : List Int) (l : List Movie) (m : Movie)
    (hne : s.isEmpty = false) (hp : paramsToInts s = some gids)
    (hok : listMovies db owner (some s) = .ok l) :
    (m ∈ l ↔ m ∈ db.movies ∧ m.user = owner ∧
       (m.genres.any fun g => gids.contains (Int.ofNat g)) = true) ∧
    l.Nodup := by
  unfold listMovies at hok
  rw [getQueryset_some db owner s gids hne hp] at hok
  injection hok with h3
  subst h3
  constructor
  · rw [mem_finishQueryset, mem_genreJoinFilter]
    tauto
  · exact nodup_finishQueryset _ _

/-- Witness for C6: user 1 filters `exDb` by genre ids 1 and 2; movies exA
and exB match (one id each), exC (untagged) and exD (foreign) do not, and
the result [exB, exA] has no duplicates. -/
theorem genre_filter_union_distinct_witness :
    (exA ∈ [exB, exA] ↔ exA ∈ exDb.movies ∧ exA.user = 1 ∧
       (exA.genres.any fun g => ([1, 2] : List Int).contains (Int.ofNat g)) = true) ∧
    ([exB, exA] : List Movie).Nodup :=
  genre_filter_union_distinct exDb 1 "1,2" [1, 2] [exB, exA] exA
    (by rfl) (by rfl) (by rfl)

/-- Claim C2: the owner of a movie is immutable through update — `user` is
not a writable serializer field, so whatever `user` value the payload
carries, the updated movie keeps its owner — and creation always stamps the
requesting user as owner, overriding any caller-supplied `user`. -/
theorem movie_owner_immutable :
    (∀ (db : Db) (u : Nat) (inst : Movie) (p : MoviePayload) (db1 : Db)
        (m1 : Movie), serializerUpdate db u inst p = .ok (db1, m1) →
        m1.user = inst.user) ∧
    (∀ (db : Db) (u : Nat) (p : MoviePayload) (db1 : Db) (m1 : Movie),
        createMovie db u p = .ok (db1, m1) → m1.user = u) := by
  constructor
  · intro db u inst p db1 m1 h
    unfold serializerUpdate at h
    split at h
    · split at h
      · exact Except.noConfusion h
      · injection h with h2
        injection h2 with hd hm
        subst hm
        rfl
    · injection h with h2
      injection h2 with hd hm
      subst hm
      rfl
  · intro db u p db1 m1 h
    unfold createMovie at h
    split at h
    · split at h
      · exact Except.noConfusion h
      · injection h with h2
        injection h2 with hd hm
        subst hm
        rfl
    · exact Except.noConfusion h

/-- Witness for C2: updating `exA` with a payload carrying `user = 99`
leaves the owner at `exA`'s owner, and creating with a payload carrying
`user = 42` as user 1 yields a movie owned by 1. -/
theorem movie_owner_immutable_witness :
    exAUpd.user = exA.user ∧ exNew.user = 1 :=
  ⟨movie_owner_immutable.1 exDb 1 exA exPayload (replaceMovie exDb exAUpd)
      exAUpd (by rfl),
   movie_owner_immutable.2 exDb 1 exCreatePayload
      (replaceMovie { exDb with movies := exDb.movies ++ [exNew],
                                nextMovieId := 11 } exNew)
      exNew (by rfl)⟩

theorem serializerUpdate_some (db : Db) (u : Nat) (inst : Movie)
    (p : MoviePayload) (descs : List String)
    (hg : p.genres = some descs) :
    serializerUpdate db u inst p =
      match getOrCreateGenres db u descs [] with
      | .error e => .error e
      | .ok (dbg, gs) =>
        .ok (replaceMovie dbg (applyFields { inst with genres := gs } p),
             applyFields { inst with genres := gs } p) := by
  unfold serializerUpdate
  rw [hg]

theorem serializerUpdate_none (db : Db) (u : Nat) (inst : Movie)
    (p : MoviePayload) (hg : p.genres = none) :
    serializerUpdate db u inst p =
      .ok (replaceMovie db (applyFields inst p), applyFields inst p) := by
  unfold serializerUpdate
  rw [hg]

/-- Claim C5: on update, a present `genres` key (even an empty list) makes
the movie's genre set exactly the result of find-or-create-and-attach over
the supplied descriptors starting from an empty set (the clear-then-
repopulate behaviour; an empty list leaves zero genres), while an absent
`genres` key leaves the genre set and the genre table untouched. -/
theorem update_genres_semantics (db : Db) (u : Nat) (inst : Movie)
    (p : MoviePayload) (db1 : Db) (m1 : Movie) (descs : List String)
    (dbg : Db) (gs : List Nat)
    (h : serializerUpdate db u inst p = .ok (db1, m1)) :
    (p.genres = some descs → getOrCreateGenres db u descs [] = .ok (dbg, gs) →
       m1.genres = gs) ∧
    (p.genres = some [] → m1.genres = []) ∧
    (p.genres = none → m1.genres = inst.genres ∧ db1.genres = db.genres) := by
  refine ⟨?_, ?_, ?_⟩
  · intro hg hgc
    rw [serializerUpdate_some db u inst p descs hg, hgc] at h
    have h2 : (Except.ok (replaceMovie dbg (applyFields { inst with
          genres := gs } p), applyFields { inst with genres := gs } p) :
        Except ApiError (Db × Movie)) = Except.ok (db1, m1) := h
    injection h2 with h3
    injection h3 with hd hm
    subst hm
    rfl
  · intro hg
    rw [serializerUpdate_some db u inst p [] hg] at h
    have h2 : (Except.ok (replaceMovie db (applyFields { inst with
          genres := ([] : List Nat) } p), applyFields { inst with
          genres := ([] : List Nat) } p) :
        Except ApiError (Db × Movie)) = Except.ok (db1, m1) := h
    injection h2 with h3
    injection h3 with hd hm
    subst hm
    rfl
  · intro hg
    rw [serializerUpdate_none db u inst p hg] at h
    injection h with h3
    injection h3 with hd hm
    subst hm
    subst hd
    exact ⟨rfl, rfl⟩

/-- Witness for C5: updating `exB` while supplying the genre name "Action"
replaces its genre set with the reconciled singleton; supplying an empty
list clears `exA`'s genres; omitting genres leaves `exA`'s genres alone. -/
theorem update_genres_semantics_witness :
    exBUpd.genres = [1] ∧ exACleared.genres = [] ∧
    exAUpd.genres = exA.genres :=
  ⟨(update_genres_semantics exDb 1 exB exGenresPayload
      (replaceMovie exDb exBUpd) exBUpd ["Action"] exDb [1]
      (by rfl)).1 (by rfl) (by rfl),
   (update_genres_semantics exDb 1 exA exClearPayload
      (replaceMovie exDb exACleared) exACleared [] exDb []
      (by rfl)).2.1 (by rfl),
   ((update_genres_semantics exDb 1 exA exPayload
      (replaceMovie exDb exAUpd) exAUpd [] exDb []
      (by rfl)).2.2 (by rfl)).1⟩

theorem getOrCreateGenres_single (db : Db) (u : Nat) (name : String)
    (gs : List Nat) :
    getOrCreateGenres db u [name] gs =
      match getOrCreate db u name with
      | .error e => .error e
      | .ok (g, dbn) => .ok (dbn, m2mAdd gs g.id) := by
  unfold getOrCreateGenres
  cases h : getOrCreate db u name with
  | error e => rfl
  | ok pr =>
    cases pr with
    | mk g dbn => rfl

theorem m2mAdd_mem_self (gs : List Nat) (g : Nat) : g ∈ m2mAdd gs g := by
  unfold m2mAdd
  split
  · assumption
  · simp

theorem m2mAdd_of_mem (gs : List Nat) (g : Nat) (h : g ∈ gs) :
    m2mAdd gs g = gs := by
  unfold m2mAdd
  exact if_pos h

theorem m2mAdd_of_not_mem (gs : List Nat) (g : Nat) (h : g ∉ gs) :
    m2mAdd gs g = gs ++ [g] := by
  unfold m2mAdd
  exact if_neg h

/-- Claim C4: genre reconciliation is idempotent.  Starting from a state
with at most one genre row for (name, user), fresh surrogate ids, and a
duplicate-free attachment list whose ids predate the fresh id, running
find-or-create-and-attach for the same name twice in a row: the second run
changes nothing, and afterwards there is exactly one genre row for
(name, user) and it is attached to the movie exactly once. -/
theorem genre_reconciliation_idempotent (db : Db) (u : Nat) (name : String)
    (gs0 : List Nat) (db1 db2 : Db) (gs1 gs2 : List Nat)
    (hdup :
      (db.genres.filter fun g => g.user == u && g.name == name).length ≤ 1)
    (hnd : gs0.Nodup)
    (hfresh : ∀ i ∈ gs0, i < db.nextGenreId)
    (h1 : getOrCreateGenres db u [name] gs0 = .ok (db1, gs1))
    (h2 : getOrCreateGenres db1 u [name] gs1 = .ok (db2, gs2)) :
    db2 = db1 ∧ gs2 = gs1 ∧
    (db1.genres.filter fun g => g.user == u && g.name == name).length = 1 ∧
    ((db1.genres.filter fun g => g.user == u && g.name == name).all
       fun g => gs1.count g.id == 1) = true := by
  rw [getOrCreateGenres_single] at h1 h2
  cases hf : db.genres.filter fun g => g.user == u && g.name == name with
  | nil =>
    have hoc : getOrCreate db u name =
        .ok (⟨db.nextGenreId, name, u⟩,
          { db with genres := db.genres ++ [⟨db.nextGenreId, name, u⟩],
                    nextGenreId := db.nextGenreId + 1 }) := by
      unfold getOrCreate
      rw [hf]
    rw [hoc] at h1
    have h1x : (Except.ok
        ({ db with genres := db.genres ++ [⟨db.nextGenreId, name, u⟩],
                   nextGenreId := db.nextGenreId + 1 },
         m2mAdd gs0 db.nextGenreId) :
        Except ApiError (Db × List Nat)) = Except.ok (db1, gs1) := h1
    injection h1x with h1y
    injection h1y with hdb hgs
    have hnid : db.nextGenreId ∉ gs0 := fun hmem =>
      absurd (hfresh _ hmem) (lt_irrefl _)
    have hgs1 : gs1 = gs0 ++ [db.nextGenreId] := by
      rw [← hgs, m2mAdd_of_not_mem gs0 db.nextGenreId hnid]
    have hfilter1 :
        (db1.genres.filter fun g => g.user == u && g.name == name)
          = [⟨db.nextGenreId, name, u⟩] := by
      rw [← hdb]
      show ((db.genres ++ [(⟨db.nextGenreId, name, u⟩ : Genre)]).filter
        fun g => g.user == u && g.name == name)
          = [(⟨db.nextGenreId, name, u⟩ : Genre)]
      rw [List.filter_append, hf]
      simp
    have hoc2 : getOrCreate db1 u name =
        .ok (⟨db.nextGenreId, name, u⟩, db1) := by
      unfold getOrCreate
      rw [hfilter1]
    rw [hoc2] at h2
    have h2x : (Except.ok (db1, m2mAdd gs1 db.nextGenreId) :
        Except ApiError (Db × List Nat)) = Except.ok (db2, gs2) := h2
    injection h2x with h2y
    injection h2y with hdb2 hgs2
    have hmem1 : db.nextGenreId ∈ gs1 := by
      rw [hgs1]
      simp
    have hcount : gs1.count db.nextGenreId = 1 := by
      rw [hgs1, List.count_append, List.count_eq_zero.mpr hnid]
      simp
    refine ⟨hdb2.symm, ?_, ?_, ?_⟩
    · rw [← hgs2, m2mAdd_of_mem _ _ hmem1]
    · rw [hfilter1]
      rfl
    · rw [hfilter1]
      simp [hcount]
  | cons g0 t =>
    cases t with
    | cons gb tb =>
      rw [hf] at hdup
      simp at hdup
    | nil =>
      have hoc : getOrCreate db u name = .ok (g0, db) := by
        unfold getOrCreate
        rw [hf]
      rw [hoc] at h1
      have h1x : (Except.ok (db, m2mAdd gs0 g0.id) :
          Except ApiError (Db × List Nat)) = Except.ok (db1, gs1) := h1
      injection h1x with h1y
      injection h1y with hdb hgs
      subst hdb
      rw [hoc] at h2
      have h2x : (Except.ok (db, m2mAdd gs1 g0.id) :
          Except ApiError (Db × List Nat)) = Except.ok (db2, gs2) := h2
      injection h2x with h2y
      injection h2y with hdb2 hgs2
      have hmem1 : g0.id ∈ gs1 := by
        rw [← hgs]
        exact m2mAdd_mem_self gs0 g0.id
      have hcount : gs1.count g0.id = 1 := by
        rw [← hgs]
        by_cases hm : g0.id ∈ gs0
        · rw [m2mAdd_of_mem _ _ hm]
          exact List.count_eq_one_of_mem hnd hm
        · rw [m2mAdd_of_not_mem _ _ hm]
          rw [List.count_append, List.count_eq_zero.mpr hm]
          simp
      refine ⟨hdb2.symm, ?_, ?_, ?_⟩
      · rw [← hgs2, m2mAdd_of_mem _ _ hmem1]
      · rw [hf]
        rfl
      · rw [hf]
        simp [hcount]

/-- Witness for C4: user 1 re-attaches "Action" (already a genre row of
user 1 in `exDb`) twice to a movie with no attachments; both runs return
the same state, one genre row named "Action" for user 1, attached once. -/
theorem genre_reconciliation_idempotent_witness :
    exDb = exDb ∧ ([1] : List Nat) = [1] ∧
    (exDb.genres.filter fun g => g.user == 1 && g.name == "Action").length
      = 1 ∧
    ((exDb.genres.filter fun g => g.user == 1 && g.name == "Action").all
       fun g => ([1] : List Nat).count g.id == 1) = true :=
  genre_reconciliation_idempotent exDb 1 "Action" [] exDb exDb [1] [1]
    (by decide) (by decide) (by decide) (by rfl) (by rfl)

/-- Counterexample for C7: with the token "abc" the list request does not
fail as a Validation (400) outcome — the uncaught int() ValueError
surfaces as the server-error outcome. -/
theorem genre_filter_bad_token_counterexample :
    listMovies exDb 1 (some "abc") = .error .serverError ∧
    ApiError.serverError ≠ ApiError.validationError :=
  ⟨rfl, by decide⟩

/-- Claim C7 (amended): a `genres` parameter containing a token that does
not parse as an integer makes the whole list request fail — it is not
silently ignored — but with the uncaught-exception server-error outcome
(HTTP 500), not a Validation (400) outcome. -/
theorem genre_filter_bad_token_server_error (db : Db) (u : Nat) (s : String)
    (hne : s.isEmpty = false) (hbad : paramsToInts s = none) :
    listMovies db u (some s) = .error .serverError := by
  simp only [listMovies, getQueryset, baseQueryset, hne, hbad]
  rfl

/-- Witness for C7's amended claim at the concrete parameter "abc". -/
theorem genre_filter_bad_token_server_error_witness :
    listMovies exDb 1 (some "abc") = .error .serverError :=
  genre_filter_bad_token_server_error exDb 1 "abc" (by rfl) (by rfl)

/-- Counterexample for C8: no route is registered at the URL segment
genres; the genre viewset is registered at the segment tags. -/
theorem genre_route_counterexample :
    routeFor "genres" = none ∧ routeFor "tags" = some "GenreViewSet" :=
  ⟨rfl, rfl⟩

/-- Claim C8 (amended): the genre collection is exposed at the resource
path tags — list at GET /tags, update and delete at /tags/id, all from the
one router registration — and the genre list operation returns all and
only the caller's genres, ordered by name descending. -/
theorem genre_route_and_list (db : Db) (u : Nat) (g : Genre) :
    routeFor "tags" = some "GenreViewSet" ∧
    (g ∈ genreListQueryset db u ↔ g ∈ db.genres ∧ g.user = u) ∧
    List.Sorted genreNameGe (genreListQueryset db u) := by
  refine ⟨rfl, ?_, ?_⟩
  · unfold genreListQueryset
    rw [(List.perm_insertionSort genreNameGe _).mem_iff, List.mem_filter]
    simp
  · exact List.sorted_insertionSort genreNameGe _

theorem string_append_assoc (a b c : String) : a ++ b ++ c = a ++ (b ++ c) := by
  cases a with
  | mk la =>
    cases b with
    | mk lb =>
      cases c with
      | mk lc =>
        show String.mk (la ++ lb ++ lc) = String.mk (la ++ (lb ++ lc))
        rw [List.append_assoc]

theorem afterLastSep_suffix (l : List Char) : afterLastSep l <:+ l := by
  induction l with
  | nil => exact List.nil_suffix
  | cons c cs ih =>
    unfold afterLastSep
    split
    · exact ih.trans (List.suffix_cons c cs)
    · split
      · exact List.suffix_cons c cs
      · exact List.suffix_refl _

theorem fromLastDot_suffix (l : List Char) : fromLastDot l <:+ l := by
  induction l with
  | nil => exact List.nil_suffix
  | cons c cs ih =>
    unfold fromLastDot
    split
    · exact ih.trans (List.suffix_cons c cs)
    · split
      · exact List.suffix_refl _
      · exact List.nil_suffix

theorem fromLastDot_shape (l : List Char) :
    fromLastDot l = [] ∨ ∃ t, fromLastDot l = '.' :: t := by
  induction l with
  | nil => exact Or.inl rfl
  | cons c cs ih =>
    unfold fromLastDot
    split
    · exact ih
    · split
      · rename_i hdot
        subst hdot
        exact Or.inr ⟨cs, rfl⟩
      · exact Or.inl rfl

theorem splitextExt_suffix (p : String) :
    (splitextExt p).toList <:+ p.toList := by
  have h1 := fromLastDot_suffix
    ((afterLastSep p.toList).dropWhile (fun c => c == '.'))
  have h2 : (afterLastSep p.toList).dropWhile (fun c => c == '.')
      <:+ afterLastSep p.toList := List.dropWhile_suffix _
  have h3 := afterLastSep_suffix p.toList
  exact (h1.trans h2).trans h3

/-- Claim C9: the storage path generated for a movie image is always the
fixed namespace uploads/movie/ followed by the generated identifier
followed by the original file name's extension — and only that shape; the
extension really is a suffix of the original name, empty or dot-led. -/
theorem movie_image_path_shape (uuidHex : String) (origName : String) :
    movie_image_file_path uuidHex origName =
      "uploads/movie/" ++ uuidHex ++ splitextExt origName ∧
    (splitextExt origName).toList <:+ origName.toList ∧
    ((splitextExt origName).toList = [] ∨
      ∃ t, (splitextExt origName).toList = '.' :: t) := by
  refine ⟨?_, splitextExt_suffix origName, ?_⟩
  · show ("uploads" ++ "/" ++ "movie" ++ "/") ++
        (uuidHex ++ splitextExt origName) =
      "uploads/movie/" ++ uuidHex ++ splitextExt origName
    exact (string_append_assoc "uploads/movie/" uuidHex
      (splitextExt origName)).symm
  · exact fromLastDot_shape _
